import Mathlib

/-!
Verification development for the deterministic natural-language task-management
pipeline in `backend/agent.py` and the task store in `backend/task_tools.py`.

The Python code is shallowly embedded: strings are `String`/`List Char`,
the `re` patterns are encoded as a small backtracking regular-expression
engine whose preference order (leftmost match, greedy `*`/`?` try the longer
alternative first, lazy `+?` the shorter one, alternation left to right)
matches CPython's `re` module on the patterns used by the source, and the
SQLAlchemy-backed store is a pure state-passing function over a task list.
-/

namespace TaskAgent

/-! ## String utilities -/

abbrev Chars := List Char

def lowerStr (s : Chars) : Chars := s.map Char.toLower

/-- Python `\w` (as used by `\b` word boundaries): letters, digits, underscore. -/
def isWordChar (c : Char) : Bool := c.isAlphanum || c == '_'

/-- Python truthiness of a string: empty is falsy. -/
def pyStrTruthy (s : String) : Bool := !(s == "")

def optStrTruthy : Option String → Bool
  | some s => pyStrTruthy s
  | none => false

/-- Python truthiness of an optional int (0 and None are falsy). -/
def optNatTruthy : Option Nat → Bool
  | some n => n != 0
  | none => false

/-- Case-insensitive match of `kw` against a prefix of `s`; returns the rest. -/
def matchCI : Chars → Chars → Option Chars
  | [], s => some s
  | _ :: _, [] => none
  | k :: ks, c :: cs => if k.toLower == c.toLower then matchCI ks cs else none

def listPrefixEq : Chars → Chars → Bool
  | [], _ => true
  | _ :: _, [] => false
  | a :: as, b :: bs => a == b && listPrefixEq as bs

/-- Substring containment (Python `needle in haystack`), exact comparison. -/
def substr (n : Chars) : Chars → Bool
  | [] => listPrefixEq n []
  | c :: t => listPrefixEq n (c :: t) || substr n t

/-- `kw` matches at the head of `s` and the following char is not a word char
(the trailing `\b`). -/
def wordHitHere (kw s : Chars) : Bool :=
  match matchCI kw s with
  | some [] => true
  | some (c :: _) => !isWordChar c
  | none => false

/-- Scan for a whole-word, case-insensitive occurrence of `kw`
(Python `re.search(rf'\b{kw}\b', s, re.IGNORECASE)`); `prevWord` records
whether the previous character was a word character (the leading `\b`). -/
def containsWordAux (prevWord : Bool) (kw : Chars) : Chars → Bool
  | [] => false
  | c :: cs =>
    ((!prevWord) && wordHitHere kw (c :: cs)) || containsWordAux (isWordChar c) kw cs

def containsWordCI (kw s : Chars) : Bool := containsWordAux false kw s

/-- Python `str.strip()`: drop whitespace at both ends. -/
def stripWS (s : Chars) : Chars :=
  ((s.dropWhile Char.isWhitespace).reverse.dropWhile Char.isWhitespace).reverse

/-- Python `str.split()` with no argument: split on whitespace runs, no
empties.  `cur` carries the current word reversed. -/
def pyWordsAux : Chars → Chars → List String
  | cur, [] => if cur.isEmpty then [] else [String.mk cur.reverse]
  | cur, c :: cs =>
    if c.isWhitespace then
      if cur.isEmpty then pyWordsAux [] cs
      else String.mk cur.reverse :: pyWordsAux [] cs
    else pyWordsAux (c :: cur) cs

def pyWords (s : String) : List String := pyWordsAux [] s.data

/-- Python `" ".join(ws)`. -/
def joinSpace : List String → String
  | [] => ""
  | [w] => w
  | w :: ws => w ++ " " ++ joinSpace ws

def parseNatDigits (s : Chars) : Nat :=
  s.foldl (fun acc c => acc * 10 + (c.toNat - '0'.toNat)) 0

/-- Python `f"{n:02d}"` for `n ≤ 99`. -/
def pad2 (n : Nat) : String := if n < 10 then "0" ++ toString n else toString n

def pad4 (n : Nat) : String :=
  if n < 10 then "000" ++ toString n
  else if n < 100 then "00" ++ toString n
  else if n < 1000 then "0" ++ toString n
  else toString n

/-! ## A small backtracking regular-expression engine

Encodes exactly the combinators the source patterns need.  `mrun` returns
all ways to match a prefix of the input, in CPython `re` preference order:
alternation left to right, greedy star longest first, lazy star shortest
first, and an optional `?` tries the present alternative first.  `research`
is `re.search`: leftmost position wins, then the first match in preference
order.  Literals compare case-insensitively, matching the source's
`re.IGNORECASE` flag on every pattern. -/

inductive RE where
  | eps
  | lit (c : Char)
  | cls (p : Char → Bool)
  | seq (a b : RE)
  | alt (a b : RE)
  | starG (a : RE)
  | starL (a : RE)
  | grp (n : Nat) (a : RE)
  | eos

abbrev Caps := List (Nat × Chars)

/-- All matches of `re` against a prefix of `s`, each as (rest, captures),
in backtracking preference order.  `fuel` bounds the recursion depth; every
use supplies more than the engine can consume, so the `0` case is dead. -/
def mrun : Nat → RE → Chars → List (Chars × Caps)
  | 0, _, _ => []
  | _ + 1, .eps, s => [(s, [])]
  | _ + 1, .eos, s => if s.isEmpty then [(s, [])] else []
  | _ + 1, .lit c, s =>
    match s with
    | [] => []
    | x :: rest => if x.toLower == c.toLower then [(rest, [])] else []
  | _ + 1, .cls p, s =>
    match s with
    | [] => []
    | x :: rest => if p x then [(rest, [])] else []
  | fuel + 1, .seq a b, s =>
    (mrun fuel a s).flatMap fun r =>
      (mrun fuel b r.1).map fun r2 => (r2.1, r.2 ++ r2.2)
  | fuel + 1, .alt a b, s => mrun fuel a s ++ mrun fuel b s
  | fuel + 1, .grp n a, s =>
    (mrun fuel a s).map fun r => (r.1, r.2 ++ [(n, s.take (s.length - r.1.length))])
  | fuel + 1, .starG a, s =>
    ((mrun fuel a s).flatMap fun r =>
      if r.1.length < s.length then
        (mrun fuel (.starG a) r.1).map fun r2 => (r2.1, r.2 ++ r2.2)
      else []) ++ [(s, [])]
  | fuel + 1, .starL a, s =>
    (s, ([] : Caps)) :: ((mrun fuel a s).flatMap fun r =>
      if r.1.length < s.length then
        (mrun fuel (.starL a) r.1).map fun r2 => (r2.1, r.2 ++ r2.2)
      else [])

def reSize : RE → Nat
  | .eps | .eos | .lit _ | .cls _ => 1
  | .seq a b | .alt a b => reSize a + reSize b + 1
  | .starG a | .starL a | .grp _ a => reSize a + 1

/-- Fuel that strictly dominates the engine's recursion depth for `re` on `s`. -/
def enoughFuel (re : RE) (s : Chars) : Nat := (reSize re + 2) * (2 * s.length + 8)

/-- `re.search` at one starting position: first match in preference order. -/
def matchHere (re : RE) (s : Chars) : Option Caps :=
  match mrun (enoughFuel re s) re s with
  | [] => none
  | r :: _ => some r.2

/-- `re.search`: try every start position left to right. -/
def research (re : RE) : Chars → Option Caps
  | [] => matchHere re []
  | c :: t =>
    match matchHere re (c :: t) with
    | some caps => some caps
    | none => research re t

def getCap (c : Caps) (n : Nat) : Chars :=
  match c.find? (fun p => p.1 == n) with
  | some p => p.2
  | none => []

def findCap (c : Caps) (n : Nat) : Option Chars :=
  (c.find? (fun p => p.1 == n)).map (·.2)

/-- Pattern combinator helpers. -/
def rstr (s : String) : RE := s.data.foldr (fun c r => RE.seq (.lit c) r) .eps

def alts : List RE → RE
  | [] => .eps
  | [r] => r
  | r :: rs => .alt r (alts rs)

def seqs : List RE → RE
  | [] => .eps
  | [r] => r
  | r :: rs => .seq r (seqs rs)

def rws : RE := .cls Char.isWhitespace

def rdig : RE := .cls Char.isDigit

/-- `.` — any character (the inputs modelled contain no newline). -/
def rany : RE := .cls fun _ => true

def plusG (a : RE) : RE := .seq a (.starG a)

def plusL (a : RE) : RE := .seq a (.starL a)

def ropt (a : RE) : RE := .alt a .eps

/-! ## FieldExtractor (`TextProcessor`, agent.py lines 58-206) -/

/-- `(?:\s+(?:kw1|kw2|...)|$)` — the boundary tail shared by the title-like
patterns. -/
def bnd (kws : List String) : RE :=
  .alt (.seq (plusG rws) (alts (kws.map rstr))) .eos

/-- `add a task:\s*(.+?)(?:\s+(?:by|due|tomorrow|today|next week|priority|description)|$)` -/
def titlePat1 : RE :=
  seqs [rstr "add a task:", .starG rws, .grp 1 (plusL rany),
        bnd ["by", "due", "tomorrow", "today", "next week", "priority", "description"]]

/-- `finish (.+?)\s+by\s+(.+?)(?:\s|$)` -/
def titlePat2 : RE :=
  seqs [rstr "finish ", .grp 1 (plusL rany), plusG rws, rstr "by", plusG rws,
        .grp 2 (plusL rany), .alt rws .eos]

/-- `remind me to (.+?)(?:\s+(?:tomorrow|today|next week|due|priority|description)|$)` -/
def titlePat3 : RE :=
  seqs [rstr "remind me to ", .grp 1 (plusL rany),
        bnd ["tomorrow", "today", "next week", "due", "priority", "description"]]

/-- `(?:i\s+)?(?:have|need|must|should|want)\s+to\s+(.+?)(?:\s+(?:by|due|tomorrow|today|next week|priority|description)|$)` -/
def titlePat4 : RE :=
  seqs [ropt (.seq (.lit 'i') (plusG rws)),
        alts (["have", "need", "must", "should", "want"].map rstr),
        plusG rws, rstr "to", plusG rws, .grp 1 (plusL rany),
        bnd ["by", "due", "tomorrow", "today", "next week", "priority", "description"]]

/-- `task:\s*(.+?)(?:\s+(?:description|due|priority)|$)` -/
def titlePat5 : RE :=
  seqs [rstr "task:", .starG rws, .grp 1 (plusL rany), bnd ["description", "due", "priority"]]

/-- `create a task (?:called|named|to)?\s*(.+?)(?:\s+(?:description|due|priority)|$)` -/
def titlePat6 : RE :=
  seqs [rstr "create a task ", ropt (alts (["called", "named", "to"].map rstr)),
        .starG rws, .grp 1 (plusL rany), bnd ["description", "due", "priority"]]

/-- `buy (.+?)(?:\s+(?:tomorrow|today|next week|due|priority|description)|$)` -/
def titlePat7 : RE :=
  seqs [rstr "buy ", .grp 1 (plusL rany),
        bnd ["tomorrow", "today", "next week", "due", "priority", "description"]]

def titlePatterns : List RE :=
  [titlePat1, titlePat2, titlePat3, titlePat4, titlePat5, titlePat6, titlePat7]

/-- `TextProcessor.extract_title`: first matching pattern's group 1 stripped,
else the first four whitespace-separated words when the input has more than
three, else the input unchanged. -/
def extractTitle (input : String) : String :=
  match titlePatterns.findSome?
      (fun p => (research p input.data).map (fun c => String.mk (stripWS (getCap c 1)))) with
  | some t => t
  | none =>
    let ws := pyWords input
    if ws.length > 3 then joinSpace (ws.take 4) else input

/-- `description:\s*(.+?)(?:\s+(?:due|priority)|$)` -/
def descPat : RE :=
  seqs [rstr "description:", .starG rws, .grp 1 (plusL rany), bnd ["due", "priority"]]

/-- `TextProcessor.extract_description`. -/
def extractDescription (input : String) : Option String :=
  (research descPat input.data).map (fun c => String.mk (stripWS (getCap c 1)))

/-- A due-date value as the source manipulates it: the extractor either
formats a concrete wall-clock date with `strftime('%Y-%m-%d')` (abstracted
as the day index `day n`, counting days from 0001-01-01, so that
`n % 7` is the Python `weekday()`, Monday = 0) or passes a matched date
string through verbatim (`raw`). -/
inductive DateVal where
  | day (n : Nat)
  | raw (s : String)
deriving DecidableEq

/-- `by\s+(friday|monday|tuesday|wednesday|thursday|saturday|sunday)` -/
def duePat1 : RE :=
  seqs [rstr "by", plusG rws,
        .grp 1 (alts (["friday", "monday", "tuesday", "wednesday", "thursday",
                       "saturday", "sunday"].map rstr))]

def duePat2 : RE := seqs [rstr "by", plusG rws, rstr "tomorrow"]

def duePat3 : RE := rstr "tomorrow"

def duePat4 : RE := rstr "today"

def duePat5 : RE := rstr "next week"

/-- `(\d{4}-\d{2}-\d{2})` -/
def duePat6 : RE :=
  .grp 1 (seqs [rdig, rdig, rdig, rdig, .lit '-', rdig, rdig, .lit '-', rdig, rdig])

/-- `(\d{1,2}/\d{1,2}/\d{4})` -/
def duePat7 : RE :=
  .grp 1 (seqs [.alt (.seq rdig rdig) rdig, .lit '/', .alt (.seq rdig rdig) rdig,
                .lit '/', rdig, rdig, rdig, rdig])

/-- `day_map` of `extract_due_date` (Python `weekday()` numbering). -/
def dayIdx : String → Nat
  | "monday" => 0
  | "tuesday" => 1
  | "wednesday" => 2
  | "thursday" => 3
  | "friday" => 4
  | "saturday" => 5
  | "sunday" => 6
  | _ => 0

/-- `TextProcessor._get_date_for_day`: `days_ahead = target - today.weekday()`,
add 7 when `days_ahead <= 0`, then `today + days_ahead`. -/
def getDateForDay (target today : Nat) : Nat :=
  let cur := today % 7
  if cur < target then today + (target - cur) else today + (target + 7 - cur)

/-- `TextProcessor.extract_due_date`, with `today` the wall-clock day index
at extraction time.  Patterns are tried in the source's order; the first
match wins. -/
def extractDueDate (today : Nat) (input : String) : Option DateVal :=
  let s := input.data
  match research duePat1 s with
  | some c => some (.day (getDateForDay (dayIdx (String.mk (lowerStr (getCap c 1)))) today))
  | none =>
  match research duePat2 s with
  | some _ => some (.day (today + 1))
  | none =>
  match research duePat3 s with
  | some _ => some (.day (today + 1))
  | none =>
  match research duePat4 s with
  | some _ => some (.day today)
  | none =>
  match research duePat5 s with
  | some _ => some (.day (today + 7))
  | none =>
  match research duePat6 s with
  | some c => some (.raw (String.mk (getCap c 1)))
  | none =>
  match research duePat7 s with
  | some c => some (.raw (String.mk (getCap c 1)))
  | none => none

/-- `(?:at|by)?\s*(\d{1,2}):(\d{2})\s*(am|pm)?` -/
def timePat1 : RE :=
  seqs [ropt (alts [rstr "at", rstr "by"]), .starG rws,
        .grp 1 (.alt (.seq rdig rdig) rdig), .lit ':', .grp 2 (.seq rdig rdig),
        .starG rws, ropt (.grp 3 (.alt (rstr "am") (rstr "pm")))]

/-- `(?:at|by)?\s*(\d{1,2})\s*(am|pm)` -/
def timePat2 : RE :=
  seqs [ropt (alts [rstr "at", rstr "by"]), .starG rws,
        .grp 1 (.alt (.seq rdig rdig) rdig), .starG rws,
        .grp 2 (.alt (rstr "am") (rstr "pm"))]

/-- The meridiem merge of `extract_time`: pm adds 12 below noon,
12am becomes 0. -/
def adjHour (hour : Nat) (mer : Option String) : Nat :=
  let h1 := if mer == some "pm" && hour < 12 then hour + 12 else hour
  if mer == some "am" && h1 == 12 then 0 else h1

def fmtTime (h m : Nat) : String := pad2 h ++ ":" ++ pad2 m

def partOfDayMap : List (String × String) :=
  [("morning", "09:00"), ("afternoon", "15:00"), ("evening", "18:00"), ("night", "20:00")]

/-- `TextProcessor.extract_time`. -/
def extractTime (input : String) : Option String :=
  let s := input.data
  match research timePat1 s with
  | some c =>
    let hour := parseNatDigits (getCap c 1)
    let minute := parseNatDigits (getCap c 2)
    let mer := (findCap c 3).map (fun l => String.mk (lowerStr l))
    some (fmtTime (adjHour hour mer) minute)
  | none =>
  match research timePat2 s with
  | some c =>
    let hour := parseNatDigits (getCap c 1)
    let mer := some (String.mk (lowerStr (getCap c 2)))
    some (fmtTime (adjHour hour mer) 0)
  | none =>
    (partOfDayMap.find? (fun kv => containsWordCI kv.1.data s)).map (·.2)

/-- `priority_map` of `extract_priority`, in declared iteration order. -/
def priorityTable : List (String × String) :=
  [("urgent", "urgent"), ("high", "high"), ("medium", "medium"), ("low", "low"),
   ("important", "high"), ("critical", "urgent")]

/-- `TextProcessor.extract_priority`: first whole-word hit in table order,
default "medium". -/
def extractPriority (input : String) : String :=
  match priorityTable.find? (fun kv => containsWordCI kv.1.data input.data) with
  | some kv => kv.2
  | none => "medium"

/-- `status_map` of `extract_status`, in declared iteration order. -/
def statusTable : List (String × String) :=
  [("done", "completed"), ("completed", "completed"), ("finished", "completed"),
   ("in progress", "in_progress"), ("started", "in_progress"), ("pending", "pending"),
   ("cancelled", "cancelled"), ("canceled", "cancelled")]

/-- `TextProcessor.extract_status`. -/
def extractStatus (input : String) : Option String :=
  (statusTable.find? (fun kv => containsWordCI kv.1.data input.data)).map (·.2)

/-- `task\s*#?(\d+)` -/
def taskIdPat : RE :=
  seqs [rstr "task", .starG rws, ropt (.lit '#'), .grp 1 (plusG rdig)]

/-- `TextProcessor.extract_task_id`. -/
def extractTaskId (input : String) : Option Nat :=
  (research taskIdPat input.data).map (fun c => parseNatDigits (getCap c 1))

/-- `(?:the\s+)?task\s+(.+?)(?:\s+(?:as|to|is)|$)` -/
def taskTitlePat : RE :=
  seqs [ropt (.seq (rstr "the") (plusG rws)), rstr "task", plusG rws,
        .grp 1 (plusL rany), bnd ["as", "to", "is"]]

/-- `TextProcessor.extract_task_title`. -/
def extractTaskTitle (input : String) : Option String :=
  (research taskTitlePat input.data).map (fun c => String.mk (stripWS (getCap c 1)))

/-! ## IntentClassifier (`IntentHandler.parse_user_intent`, lines 211-240) -/

inductive Intent where
  | create
  | update
  | delete
  | list
  | filter
  | general
deriving DecidableEq

/-- `intent_patterns`, in the dict's declared (= iteration) order. -/
def intentKeywords : List (Intent × List String) :=
  [ (.create, ["create", "add", "new", "make", "finish", "complete", "do", "plan",
               "schedule", "remind me to", "i have to", "have to", "need to", "must",
               "should", "want to", "i want", "i need", "i should", "i must", "i have",
               "i will", "i\x27m going to"]),
    (.update, ["update", "change", "modify", "edit", "mark", "done", "complete", "finish"]),
    (.delete, ["delete", "remove", "cancel", "drop", "erase"]),
    (.list, ["list", "show", "display", "get all", "what are", "what\x27s my", "my tasks"]),
    (.filter, ["filter", "find", "search", "look for", "high priority", "urgent",
               "pending", "completed"]) ]

/-- Intent classification: the message is lower-cased, intents are scanned in
declared order, and the first intent one of whose keywords occurs as a
substring wins; `general` when none match. -/
def classifyIntent (input : String) : Intent :=
  match intentKeywords.find?
      (fun p => p.2.any (fun kw => substr kw.data (lowerStr input.data))) with
  | some p => p.1
  | none => .general

/-- `create_indicators` of the `general` fallback branch (lines 263-268). -/
def createIndicators : List String :=
  ["add", "create", "new", "finish", "complete", "do", "task", "plan", "schedule",
   "remind me to", "i have to", "have to", "need to", "must", "should", "want to",
   "i want", "i need", "i should", "i must", "i have", "i will", "i\x27m going to",
   "tomorrow", "today", "next week", "this week", "play", "eat", "buy", "call", "visit"]

/-! ## The task store (`task_tools.py`, `database.py`)

Dates are parsed to day indices (days since 0001-01-01, proleptic
Gregorian, so index 1 is 0001-01-02 and index `% 7` is Python's
`weekday()`).  `datetime.fromisoformat` accepts exactly the valid
`YYYY-MM-DD` strings among the strings the extractor can pass through
verbatim; slash dates like `1/2/2024` always fail it. -/

inductive Priority where
  | low
  | medium
  | high
  | urgent
deriving DecidableEq

inductive Status where
  | pending
  | in_progress
  | completed
  | cancelled
deriving DecidableEq

def priorityStr : Priority → String
  | .low => "low"
  | .medium => "medium"
  | .high => "high"
  | .urgent => "urgent"

def statusStr : Status → String
  | .pending => "pending"
  | .in_progress => "in_progress"
  | .completed => "completed"
  | .cancelled => "cancelled"

/-- `TaskPriority(s.lower())`. -/
def parsePriority (s : String) : Option Priority :=
  match String.mk (lowerStr s.data) with
  | "low" => some .low
  | "medium" => some .medium
  | "high" => some .high
  | "urgent" => some .urgent
  | _ => none

/-- `TaskStatus(s.lower())`. -/
def parseStatus (s : String) : Option Status :=
  match String.mk (lowerStr s.data) with
  | "pending" => some .pending
  | "in_progress" => some .in_progress
  | "completed" => some .completed
  | "cancelled" => some .cancelled
  | _ => none

def isLeap (y : Nat) : Bool := (y % 4 == 0 && y % 100 != 0) || y % 400 == 0

def daysInMonth (y m : Nat) : Nat :=
  if m == 2 then (if isLeap y then 29 else 28)
  else if m == 4 || m == 6 || m == 9 || m == 11 then 30
  else 31

def daysBeforeMonth (y m : Nat) : Nat :=
  (List.range (m - 1)).foldl (fun acc i => acc + daysInMonth y (i + 1)) 0

/-- Day index of the civil date `y-m-d`: days since 0001-01-01
(0001-01-01 was a Monday, so `idx % 7` is Python's `weekday()`). -/
def civilToIdx (y m d : Nat) : Nat :=
  365 * (y - 1) + (y - 1) / 4 - (y - 1) / 100 + (y - 1) / 400 + daysBeforeMonth y m + d - 1

/-- Parse a `YYYY-MM-DD` string exactly as `datetime.fromisoformat` does
(years 1-9999, calendar-valid month/day); anything else fails. -/
def parseIso (s : String) : Option Nat :=
  match s.data with
  | [y1, y2, y3, y4, h1, m1, m2, h2, d1, d2] =>
    if y1.isDigit && y2.isDigit && y3.isDigit && y4.isDigit && h1 == '-' &&
       m1.isDigit && m2.isDigit && h2 == '-' && d1.isDigit && d2.isDigit then
      let y := parseNatDigits [y1, y2, y3, y4]
      let m := parseNatDigits [m1, m2]
      let d := parseNatDigits [d1, d2]
      if 1 ≤ y && 1 ≤ m && m ≤ 12 && 1 ≤ d && d ≤ daysInMonth y m then
        some (civilToIdx y m d)
      else none
    else none
  | _ => none

/-- `datetime.fromisoformat(due_date.replace('Z', '+00:00'))` on the values
the extractor produces: a `day` value is a date the extractor itself
formatted, which round-trips; a `raw` string is parsed as ISO. -/
def tryParseDate : DateVal → Option Nat
  | .day n => some n
  | .raw s => parseIso s

/-- Python truthiness of a due-date string (`if due_date:` in create_task). -/
def dateTruthy : DateVal → Bool
  | .day _ => true
  | .raw s => pyStrTruthy s

structure Task where
  id : Nat
  title : String
  description : Option String
  status : Status
  due_date : Option Nat
  priority : Priority
deriving DecidableEq

/-- The task table, in creation order (so `order_by(created_at.desc())`
is `reverse`); `nextId` is the autoincrement counter. -/
structure TaskStore where
  tasks : List Task
  nextId : Nat
deriving DecidableEq

def emptyStore : TaskStore := ⟨[], 1⟩

structure CreateArgs where
  title : String
  description : Option String := none
  due_date : Option DateVal := none
  priority : String := "medium"
  time_hint : Option String := none
deriving DecidableEq

structure UpdateArgs where
  task_id : Option Nat := none
  title_match : Option String := none
  title : Option String := none
  description : Option String := none
  status : Option String := none
  due_date : Option DateVal := none
  priority : Option String := none
deriving DecidableEq

structure DeleteArgs where
  task_id : Option Nat := none
  title_match : Option String := none
deriving DecidableEq

structure FilterArgs where
  status : Option String := none
  priority : Option String := none
  due_date_from : Option DateVal := none
  due_date_to : Option DateVal := none
deriving DecidableEq

/-- The untagged result dict every store operation and dispatcher branch
returns; absent keys are `none`, and `success` is the dict's truthy
`"success": True` marker. -/
structure ActionResult where
  error : Option String := none
  success : Bool := false
  message : Option String := none
  task : Option Task := none
  tasks : Option (List Task) := none
  count : Option Nat := none
  filters : Option FilterArgs := none
deriving DecidableEq

def invalidDateMsg : String := "Invalid date format. Use YYYY-MM-DD format."

def invalidPriorityMsg : String :=
  "Invalid priority. Must be one of: [\x27low\x27, \x27medium\x27, \x27high\x27, \x27urgent\x27]"

def invalidStatusMsg : String :=
  "Invalid status. Must be one of: [\x27pending\x27, \x27in_progress\x27, \x27completed\x27, \x27cancelled\x27]"

/-- The time-hint folding of `create_task` (task_tools.py lines 47-50). -/
def foldTimeHint (description time_hint : Option String) : Option String :=
  if optStrTruthy time_hint then
    some (if optStrTruthy description then
            description.getD "" ++ " | time: " ++ time_hint.getD ""
          else "time: " ++ time_hint.getD "")
  else description

/-- The `if <date>: try fromisoformat except: return error` block the store
repeats for `due_date`, `due_date_from` and `due_date_to`, with the
respective error message. -/
def dueBoundStep (msg : String) (due : Option DateVal) : Except String (Option Nat) :=
  match due with
  | none => .ok none
  | some d =>
    if dateTruthy d then
      match tryParseDate d with
      | some pd => .ok (some pd)
      | none => .error msg
    else .ok none

/-- The due-date parsing step of `create_task`. -/
def parseDueArg (due : Option DateVal) : Except String (Option Nat) :=
  dueBoundStep invalidDateMsg due

/-- `create_task`. -/
def createTask (a : CreateArgs) (st : TaskStore) : ActionResult × TaskStore :=
  match parseDueArg a.due_date with
  | .error e => ({ error := some e }, st)
  | .ok pd =>
    match parsePriority a.priority with
    | none => ({ error := some invalidPriorityMsg }, st)
    | some pr =>
      let desc := foldTimeHint a.description a.time_hint
      let t : Task :=
        { id := st.nextId, title := a.title, description := desc,
          status := .pending, due_date := pd, priority := pr }
      ({ success := true,
         message := some ("Task \x27" ++ a.title ++ "\x27 created successfully"),
         task := some t },
       { tasks := st.tasks ++ [t], nextId := st.nextId + 1 })

def findById (ts : List Task) (i : Nat) : Option Task :=
  ts.find? (fun t => t.id == i)

/-- `Task.title.ilike(f"%{m}%")` followed by `.first()`: case-insensitive
substring match, first row in table (creation) order. -/
def findByTitleSub (ts : List Task) (m : String) : Option Task :=
  ts.find? (fun t => substr (lowerStr m.data) (lowerStr t.title.data))

def replaceById (ts : List Task) (t : Task) : List Task :=
  ts.map (fun u => if u.id == t.id then t else u)

/-- `update_task`.  A validation failure returns before the commit, so the
store is unchanged on every error path. -/
def updateTask (a : UpdateArgs) (st : TaskStore) : ActionResult × TaskStore :=
  let found :=
    if optNatTruthy a.task_id then findById st.tasks (a.task_id.getD 0)
    else if optStrTruthy a.title_match then findByTitleSub st.tasks (a.title_match.getD "")
    else none
  match found with
  | none => ({ error := some "Task not found" }, st)
  | some t0 =>
    let t1 := match a.title with
      | some s => { t0 with title := s }
      | none => t0
    let t2 := match a.description with
      | some s => { t1 with description := some s }
      | none => t1
    let statusStep : Except String Task :=
      match a.status with
      | none => .ok t2
      | some s =>
        match parseStatus s with
        | some v => .ok { t2 with status := v }
        | none => .error invalidStatusMsg
    match statusStep with
    | .error e => ({ error := some e }, st)
    | .ok t3 =>
      let dueStep : Except String Task :=
        match a.due_date with
        | none => .ok t3
        | some d =>
          match tryParseDate d with
          | some pd => .ok { t3 with due_date := some pd }
          | none => .error invalidDateMsg
      match dueStep with
      | .error e => ({ error := some e }, st)
      | .ok t4 =>
        let prStep : Except String Task :=
          match a.priority with
          | none => .ok t4
          | some p =>
            match parsePriority p with
            | some v => .ok { t4 with priority := v }
            | none => .error invalidPriorityMsg
        match prStep with
        | .error e => ({ error := some e }, st)
        | .ok t5 =>
          ({ success := true,
             message := some ("Task \x27" ++ t5.title ++ "\x27 updated successfully"),
             task := some t5 },
           { st with tasks := replaceById st.tasks t5 })

/-- `delete_task`. -/
def deleteTask (a : DeleteArgs) (st : TaskStore) : ActionResult × TaskStore :=
  let found :=
    if optNatTruthy a.task_id then findById st.tasks (a.task_id.getD 0)
    else if optStrTruthy a.title_match then findByTitleSub st.tasks (a.title_match.getD "")
    else none
  match found with
  | none => ({ error := some "Task not found" }, st)
  | some t =>
    ({ success := true,
       message := some ("Task \x27" ++ t.title ++ "\x27 deleted successfully") },
     { st with tasks := st.tasks.filter (fun u => !(u.id == t.id)) })

/-- `list_tasks`: all tasks, newest creation first. -/
def listTasks (st : TaskStore) : ActionResult :=
  let ts := st.tasks.reverse
  { success := true, tasks := some ts, count := some ts.length }

/-- The conjunction of query filters `filter_tasks` builds; `NULL` due
dates never satisfy a date-range comparison in SQL, so tasks without a
due date are excluded once a bound is given. -/
def keepTask (fs : Option Status) (fp : Option Priority) (ff ft : Option Nat)
    (t : Task) : Bool :=
  (match fs with | some v => t.status == v | none => true) &&
  (match fp with | some v => t.priority == v | none => true) &&
  (match ff with
   | some n => (match t.due_date with | some d => decide (n ≤ d) | none => false)
   | none => true) &&
  (match ft with
   | some n => (match t.due_date with | some d => decide (d ≤ n) | none => false)
   | none => true)

/-- The `if status:` validation step of `filter_tasks`. -/
def statusFilterStep (s : Option String) : Except String (Option Status) :=
  if optStrTruthy s then
    match parseStatus (s.getD "") with
    | some v => .ok (some v)
    | none => .error invalidStatusMsg
  else .ok none

/-- The `if priority:` validation step of `filter_tasks`. -/
def priorityFilterStep (p : Option String) : Except String (Option Priority) :=
  if optStrTruthy p then
    match parsePriority (p.getD "") with
    | some v => .ok (some v)
    | none => .error invalidPriorityMsg
  else .ok none

/-- `filter_tasks`. -/
def filterTasks (a : FilterArgs) (st : TaskStore) : ActionResult :=
  match statusFilterStep a.status with
  | .error e => { error := some e }
  | .ok fs =>
    match priorityFilterStep a.priority with
    | .error e => { error := some e }
    | .ok fp =>
      match dueBoundStep "Invalid due_date_from format. Use YYYY-MM-DD format."
          a.due_date_from with
      | .error e => { error := some e }
      | .ok ff =>
        match dueBoundStep "Invalid due_date_to format. Use YYYY-MM-DD format."
            a.due_date_to with
        | .error e => { error := some e }
        | .ok ft =>
          let ts := (st.tasks.filter (keepTask fs fp ff ft)).reverse
          { success := true, tasks := some ts, count := some ts.length, filters := some a }

/-! ## ActionDispatcher (`IntentHandler`, lines 242-350)

The store operations the dispatcher calls are abstracted as `StoreOps` so
the `try/except` at the dispatcher boundary can be stated over arbitrary
collaborator behaviour: an operation "raises" by returning `.error`.
`realOps` is the concrete `task_tools` implementation, which catches its
own exceptions internally and never raises. -/

structure StoreOps where
  createT : CreateArgs → TaskStore → Except String (ActionResult × TaskStore)
  updateT : UpdateArgs → TaskStore → Except String (ActionResult × TaskStore)
  deleteT : DeleteArgs → TaskStore → Except String (ActionResult × TaskStore)
  listT : TaskStore → Except String (ActionResult × TaskStore)
  filterT : FilterArgs → TaskStore → Except String (ActionResult × TaskStore)

def realOps : StoreOps where
  createT := fun a st => .ok (createTask a st)
  updateT := fun a st => .ok (updateTask a st)
  deleteT := fun a st => .ok (deleteTask a st)
  listT := fun st => .ok (listTasks st, st)
  filterT := fun a st => .ok (filterTasks a st, st)

def noTitleGuidance : String :=
  "I\x27d be happy to help you create a task! \u00F0\u0178\u02DC\u0160\n\nCould you please tell me what you\x27d like to do? For example:\n\u00E2\u20AC\u00A2 \x27Buy groceries tomorrow\x27\n\u00E2\u20AC\u00A2 \x27Call the dentist next week\x27\n\u00E2\u20AC\u00A2 \x27Finish the report by Friday\x27"

def noTargetUpdateGuidance : String :=
  "I can help you update a task! \u00F0\u0178\u02DC\u0160\n\nPlease tell me which task to update:\n\u00E2\u20AC\u00A2 \x27Mark task 1 as completed\x27\n\u00E2\u20AC\u00A2 \x27Update the grocery task to high priority\x27\n\u00E2\u20AC\u00A2 \x27Change task 2 to due tomorrow\x27"

def noTargetDeleteGuidance : String :=
  "I can help you delete a task! \u00F0\u0178\u02DC\u0160\n\nPlease tell me which task to delete:\n\u00E2\u20AC\u00A2 \x27Delete task 1\x27\n\u00E2\u20AC\u00A2 \x27Remove the grocery task\x27\n\u00E2\u20AC\u00A2 \x27Cancel the dentist appointment\x27"

def helpMessage : String :=
  "I can help you manage tasks! \u00F0\u0178\u02DC\u0160\n\nTry saying:\n\u00E2\u20AC\u00A2 \x27Create a task to buy groceries tomorrow\x27\n\u00E2\u20AC\u00A2 \x27Show me all my tasks\x27\n\u00E2\u20AC\u00A2 \x27Mark task 1 as completed\x27\n\u00E2\u20AC\u00A2 \x27Delete the grocery task\x27\n\nWhat would you like to do?"

/-- The arguments `_create_task_from_input` passes to `create_task`. -/
def createArgsOfInput (today : Nat) (input : String) : CreateArgs where
  title := extractTitle input
  description := extractDescription input
  due_date := extractDueDate today input
  priority := extractPriority input
  time_hint := extractTime input

/-- `IntentHandler._create_task_from_input`. -/
def createTaskFromInput (ops : StoreOps) (today : Nat) (input : String) (st : TaskStore) :
    Except String (ActionResult × TaskStore) :=
  if extractTitle input == "" then .ok ({ error := some noTitleGuidance }, st)
  else ops.createT (createArgsOfInput today input) st

/-- The arguments `_update_task_from_input` passes to `update_task`:
`title` and `priority` are always present because their extractors are
total, while `description`, `status` and `due_date` may be absent. -/
def updateArgsOfInput (today : Nat) (input : String) : UpdateArgs where
  task_id := extractTaskId input
  title_match := extractTaskTitle input
  title := some (extractTitle input)
  description := extractDescription input
  status := extractStatus input
  due_date := extractDueDate today input
  priority := some (extractPriority input)

/-- `IntentHandler._update_task_from_input`. -/
def updateTaskFromInput (ops : StoreOps) (today : Nat) (input : String) (st : TaskStore) :
    Except String (ActionResult × TaskStore) :=
  if !optNatTruthy (extractTaskId input) && !optStrTruthy (extractTaskTitle input) then
    .ok ({ error := some noTargetUpdateGuidance }, st)
  else ops.updateT (updateArgsOfInput today input) st

/-- `IntentHandler._delete_task_from_input`. -/
def deleteTaskFromInput (ops : StoreOps) (input : String) (st : TaskStore) :
    Except String (ActionResult × TaskStore) :=
  if !optNatTruthy (extractTaskId input) && !optStrTruthy (extractTaskTitle input) then
    .ok ({ error := some noTargetDeleteGuidance }, st)
  else ops.deleteT { task_id := extractTaskId input, title_match := extractTaskTitle input } st

/-- The arguments `_filter_tasks_from_input` passes to `filter_tasks`:
`priority` is always present because `extract_priority` is total. -/
def filterArgsOfInput (today : Nat) (input : String) : FilterArgs where
  status := extractStatus input
  priority := some (extractPriority input)
  due_date_from := extractDueDate today input
  due_date_to := none

/-- `IntentHandler._filter_tasks_from_input`. -/
def filterTasksFromInput (ops : StoreOps) (today : Nat) (input : String) (st : TaskStore) :
    Except String (ActionResult × TaskStore) :=
  ops.filterT (filterArgsOfInput today input) st

/-- The body of the `try:` block of `execute_task_action` for one intent:
which store operation runs, with which arguments. -/
def dispatchAction (ops : StoreOps) (today : Nat) (intent : Intent) (input : String)
    (st : TaskStore) : Except String (ActionResult × TaskStore) :=
  match intent with
  | .create => createTaskFromInput ops today input st
  | .update => updateTaskFromInput ops today input st
  | .delete => deleteTaskFromInput ops input st
  | .list => ops.listT st
  | .filter => filterTasksFromInput ops today input st
  | .general =>
    if createIndicators.any (fun kw => substr kw.data (lowerStr input.data)) then
      createTaskFromInput ops today input st
    else .ok ({ message := some helpMessage }, st)

/-! ## ConversationPipeline (`AgentState`, `ResponseGenerator`,
`process_user_message`, deterministic strategy) -/

structure Turn where
  role : String
  content : String
  timestamp : String
deriving DecidableEq

structure AgentState where
  messages : List Turn
  intent : Option Intent := none
  actionResult : Option ActionResult := none
deriving DecidableEq

/-- `IntentHandler.parse_user_intent` as a graph node: classify the last
message's content; an empty transcript leaves the state untouched. -/
def parseUserIntent (s : AgentState) : AgentState :=
  match s.messages.getLast? with
  | none => s
  | some m => { s with intent := some (classifyIntent m.content) }

/-- `IntentHandler.execute_task_action` as a graph node: dispatch on the
stored intent (default `general`), catching any exception the store call
raises and wrapping it as `{"error": "An error occurred: ..."}`. -/
def executeTaskAction (ops : StoreOps) (today : Nat) (s : AgentState) (st : TaskStore) :
    AgentState × TaskStore :=
  let intent := s.intent.getD .general
  let input := match s.messages.getLast? with
    | some m => m.content
    | none => ""
  match dispatchAction ops today intent input st with
  | .ok (r, st2) => ({ s with actionResult := some r }, st2)
  | .error e =>
    ({ s with actionResult := some { error := some ("An error occurred: " ++ e) } }, st)

def errTruthy (r : ActionResult) : Bool :=
  match r.error with
  | some e => pyStrTruthy e
  | none => false

def idxToCivil (n : Nat) : Nat × Nat × Nat :=
  let w := n + 306
  let era := w / 146097
  let doe := w % 146097
  let yoe := (doe - doe / 1460 + doe / 36524 - doe / 146096) / 365
  let y0 := yoe + era * 400
  let doy := doe - (365 * yoe + yoe / 4 - yoe / 100)
  let mp := (5 * doy + 2) / 153
  let d := doy - (153 * mp + 2) / 5 + 1
  let m := if mp < 10 then mp + 3 else mp - 9
  ((if m ≤ 2 then y0 + 1 else y0), m, d)

/-- `task["due_date"]` in the response: `to_dict` formats the stored
datetime with `isoformat()` (midnight, since only dates are stored). -/
def idxToIsoDatetime (n : Nat) : String :=
  let c := idxToCivil n
  pad4 c.1 ++ "-" ++ pad2 c.2.1 ++ "-" ++ pad2 c.2.2 ++ "T00:00:00"

/-- The single-task detail block of `generate_response` (lines 367-375). -/
def taskDetailBlock (t : Task) : String :=
  "\n\n\u00F0\u0178\u201C\u2039 Task Details:\n" ++
  "\u00E2\u20AC\u00A2 ID: " ++ toString t.id ++ "\n" ++
  "\u00E2\u20AC\u00A2 Title: " ++ t.title ++ "\n" ++
  "\u00E2\u20AC\u00A2 Status: " ++ statusStr t.status ++ "\n" ++
  "\u00E2\u20AC\u00A2 Priority: " ++ priorityStr t.priority ++ "\n" ++
  (match t.due_date with
   | some d => "\u00E2\u20AC\u00A2 Due Date: " ++ idxToIsoDatetime d ++ "\n"
   | none => "")

/-- One task line of the task-list block (lines 380-383). -/
def taskLine (t : Task) : String :=
  "\u00E2\u20AC\u00A2 " ++ t.title ++ " (ID: " ++ toString t.id ++ ", Status: " ++
  statusStr t.status ++ ", Priority: " ++ priorityStr t.priority ++ ")\n" ++
  (match t.due_date with
   | some d => "  \u00F0\u0178\u201C\u2026 Due: " ++ idxToIsoDatetime d ++ "\n"
   | none => "")

def noTasksFoundMsg : String :=
  "No tasks found matching your criteria. \u00F0\u0178\u00A4\u00B7\u00E2\u20AC\u00E2\u2122\u201A\u00EF\u00B8"

def defaultSuccessMsg : String := "Action completed successfully! \u00E2\u0153\u2026"

def hereToHelpMsg : String :=
  "I\x27m here to help you manage your tasks! \u00F0\u0178\u02DC\u0160"

/-- The reply text composed by `ResponseGenerator.generate_response`
(lines 356-387): error first, then truthy `success`, then a `tasks` key,
then the result's own message or the generic help text. -/
def generateResponse (r : ActionResult) : String :=
  if errTruthy r then r.error.getD ""
  else if r.success then
    let base := match r.message with
      | some m => m
      | none => defaultSuccessMsg
    match r.task with
    | some t => base ++ taskDetailBlock t
    | none => base
  else
    match r.tasks with
    | some ts =>
      if ts.isEmpty then noTasksFoundMsg
      else "\u00F0\u0178\u201C Found " ++ toString ts.length ++ " task(s):\n\n" ++
           String.join (ts.map taskLine)
    | none =>
      match r.message with
      | some m => m
      | none => hereToHelpMsg

/-- `generate_response` as a graph node: compose the reply and append the
assistant turn (timestamped with the composition time `tNow`). -/
def generateResponseNode (tNow : String) (s : AgentState) : AgentState :=
  let r := s.actionResult.getD {}
  { s with messages :=
      s.messages ++ [{ role := "assistant", content := generateResponse r, timestamp := tNow }] }

/-- The compiled deterministic graph: parse_intent → execute_action →
generate_response. -/
def runDeterministicAgent (ops : StoreOps) (today : Nat) (tNow : String)
    (s0 : AgentState) (st : TaskStore) : AgentState × TaskStore :=
  let s1 := parseUserIntent s0
  let p := executeTaskAction ops today s1 st
  (generateResponseNode tNow p.1, p.2)

/-- `process_user_message` on the deterministic (fallback) path: append the
user turn, run the graph, return the last message's content and the new
transcript.  `tUser`/`tAsst` are the two `str(datetime.utcnow())` reads. -/
def processUserMessage (ops : StoreOps) (today : Nat) (st : TaskStore)
    (userMessage : String) (history : List Turn) (tUser tAsst : String) :
    (String × List Turn) × TaskStore :=
  let hist := history ++ [{ role := "user", content := userMessage, timestamp := tUser }]
  let s0 : AgentState := { messages := hist }
  let p := runDeterministicAgent ops today tAsst s0 st
  ((match p.1.messages.getLast? with
    | some m => m.content
    | none => "", p.1.messages), p.2)

/-! ## Helper lemmas -/

theorem matchCI_lowerPrefixEq {kw : Chars} :
    ∀ {s r : Chars}, matchCI kw s = some r →
      listPrefixEq (lowerStr kw) (lowerStr s) = true := by
  induction kw with
  | nil => intro s r _; simp [listPrefixEq]
  | cons k ks ih =>
    intro s r h
    cases s with
    | nil => simp [matchCI] at h
    | cons c cs =>
      simp only [matchCI] at h
      split at h
      · next heq =>
        have hih := ih h
        simp only [lowerStr, List.map_cons, listPrefixEq, Bool.and_eq_true]
        exact ⟨heq, by simpa [lowerStr] using hih⟩
      · exact absurd h (by simp)

theorem substr_of_prefixEq {n h : Chars} (hp : listPrefixEq n h = true) :
    substr n h = true := by
  cases h with
  | nil => simpa [substr] using hp
  | cons c t => simp [substr, hp]

theorem substr_of_tail {n t : Chars} (c : Char) (h : substr n t = true) :
    substr n (c :: t) = true := by
  simp [substr, h]

theorem wordHitHere_substr {kw s : Chars} (h : wordHitHere kw s = true) :
    substr (lowerStr kw) (lowerStr s) = true := by
  unfold wordHitHere at h
  cases hm : matchCI kw s with
  | none => rw [hm] at h; simp at h
  | some r => exact substr_of_prefixEq (matchCI_lowerPrefixEq hm)

theorem containsWordAux_substr {kw : Chars} :
    ∀ {s : Chars} {b : Bool}, containsWordAux b kw s = true →
      substr (lowerStr kw) (lowerStr s) = true := by
  intro s
  induction s with
  | nil => intro b h; simp [containsWordAux] at h
  | cons c cs ih =>
    intro b h
    simp only [containsWordAux, Bool.or_eq_true, Bool.and_eq_true] at h
    rcases h with ⟨-, hhit⟩ | htail
    · exact wordHitHere_substr hhit
    · have := ih htail
      simpa [lowerStr] using substr_of_tail c.toLower (by simpa [lowerStr] using this)

theorem containsWordCI_substr {kw s : Chars} (h : containsWordCI kw s = true) :
    substr (lowerStr kw) (lowerStr s) = true :=
  containsWordAux_substr h

/-- If some keyword of the create list occurs as a substring of the
lower-cased input, the classifier answers `create` (create is scanned
first). -/
theorem classifyIntent_create_of_kw {kw : String} {input : String}
    (hmem : kw ∈ ["create", "add", "new", "make", "finish", "complete", "do", "plan",
                  "schedule", "remind me to", "i have to", "have to", "need to", "must",
                  "should", "want to", "i want", "i need", "i should", "i must", "i have",
                  "i will", "i\x27m going to"])
    (h : substr kw.data (lowerStr input.data) = true) :
    classifyIntent input = .create := by
  unfold classifyIntent intentKeywords
  rw [List.find?_cons_of_pos]
  simp only [List.any_eq_true]
  exact ⟨kw, hmem, h⟩

/-- No whole-word priority keyword implies the "medium" default. -/
theorem extractPriority_medium_of_no_kw {input : String}
    (h : ∀ kv ∈ priorityTable, containsWordCI kv.1.data input.data = false) :
    extractPriority input = "medium" := by
  unfold extractPriority
  rw [List.find?_eq_none.mpr]
  intro kv hkv
  simp [h kv hkv]

/-! ## Claim theorems -/

/-- C3: any lower-cased input containing the word "finish" or "complete"
classifies as `create` (never `update`), because create keywords are
scanned first and both words are create keywords; in particular
"finish the report by friday" classifies as create with extracted title
"the report" and due date resolved, for any current date, to the upcoming
Friday via `getDateForDay`. -/
theorem c3_finish_complete_create (input : String) (today : Nat)
    (h : containsWordCI "finish".data input.data = true ∨
         containsWordCI "complete".data input.data = true) :
    classifyIntent input = .create ∧ classifyIntent input ≠ .update ∧
    classifyIntent "finish the report by friday" = .create ∧
    extractTitle "finish the report by friday" = "the report" ∧
    extractDueDate today "finish the report by friday" =
      some (.day (getDateForDay 4 today)) := by
  have hc : classifyIntent input = .create := by
    rcases h with h | h
    · have hs := containsWordCI_substr h
      rw [show lowerStr "finish".data = "finish".data from by decide] at hs
      exact @classifyIntent_create_of_kw "finish" input (by simp) hs
    · have hs := containsWordCI_substr h
      rw [show lowerStr "complete".data = "complete".data from by decide] at hs
      exact @classifyIntent_create_of_kw "complete" input (by simp) hs
  refine ⟨hc, by simp [hc], by decide, by decide, ?_⟩
  rfl

theorem c3_finish_complete_create_witness :
    containsWordCI "finish".data "finish the report by friday".data = true ∧
    (classifyIntent "finish the report by friday" = .create ∧
     classifyIntent "finish the report by friday" ≠ .update ∧
     classifyIntent "finish the report by friday" = .create ∧
     extractTitle "finish the report by friday" = "the report" ∧
     extractDueDate 3 "finish the report by friday" = some (.day (getDateForDay 4 3))) :=
  ⟨by decide, c3_finish_complete_create "finish the report by friday" 3 (Or.inl (by decide))⟩

/-- C4: when the weekday pattern `by <weekday>` is what `extract_due_date`
matches, the result is `getDateForDay` of that weekday, which is strictly
after today, lands on the named weekday, is at most 7 days ahead, and is
exactly 7 days ahead when today already is that weekday. -/
theorem c4_weekday_due_future (today d : Nat) (input : String) (c : Caps)
    (h1 : research duePat1 input.data = some c)
    (h2 : dayIdx (String.mk (lowerStr (getCap c 1))) = d)
    (hd : d < 7) :
    extractDueDate today input = some (.day (getDateForDay d today)) ∧
    today < getDateForDay d today ∧
    getDateForDay d today ≤ today + 7 ∧
    getDateForDay d today % 7 = d ∧
    (today % 7 = d → getDateForDay d today = today + 7) := by
  refine ⟨?_, ?_, ?_, ?_, ?_⟩
  · simp [extractDueDate, h1, h2]
  · simp only [getDateForDay]; split <;> omega
  · simp only [getDateForDay]; split <;> omega
  · simp only [getDateForDay]; split <;> omega
  · intro he; simp only [getDateForDay]; split <;> omega

theorem c4_weekday_due_future_witness :
    extractDueDate 11 "by friday" = some (.day (getDateForDay 4 11)) ∧
    11 < getDateForDay 4 11 ∧
    getDateForDay 4 11 ≤ 11 + 7 ∧
    getDateForDay 4 11 % 7 = 4 ∧
    (11 % 7 = 4 → getDateForDay 4 11 = 11 + 7) :=
  c4_weekday_due_future 11 4 "by friday" [(1, "friday".data)] (by decide) (by decide)
    (by decide)

/-- C5: `extract_priority` is total with default "medium": an input with no
whole-word priority keyword yields "medium", otherwise the value of the
first whole-word hit in the declared table order; the result is always one
of the four priority words. -/
theorem c5_priority_total_first_hit (input : String) :
    (extractPriority input = "urgent" ∨ extractPriority input = "high" ∨
     extractPriority input = "medium" ∨ extractPriority input = "low") ∧
    ((∀ kv ∈ priorityTable, containsWordCI kv.1.data input.data = false) →
      extractPriority input = "medium") ∧
    (∀ kw v, priorityTable.find? (fun kv => containsWordCI kv.1.data input.data) =
        some (kw, v) → extractPriority input = v) := by
  refine ⟨?_, fun h => extractPriority_medium_of_no_kw h, ?_⟩
  · unfold extractPriority
    cases hf : priorityTable.find? (fun kv => containsWordCI kv.1.data input.data) with
    | none => simp
    | some kv =>
      have hm := List.mem_of_find?_eq_some hf
      simp only [priorityTable, List.mem_cons, List.not_mem_nil, or_false] at hm
      rcases hm with rfl | rfl | rfl | rfl | rfl | rfl <;> simp
  · intro kw v hf
    unfold extractPriority
    rw [hf]

theorem string_append_ne_empty {a : String} (e : String) (ha : a ≠ "") :
    a ++ e ≠ "" := by
  cases a with | mk l =>
  cases e with | mk m =>
  intro hc
  have hdata : l ++ m = [] := congrArg String.data hc
  rcases List.append_eq_nil.mp hdata with ⟨rfl, -⟩
  exact ha rfl

theorem parseUserIntent_messages (s : AgentState) :
    (parseUserIntent s).messages = s.messages := by
  unfold parseUserIntent
  cases s.messages.getLast? <;> rfl

theorem executeTaskAction_messages (ops : StoreOps) (today : Nat) (s : AgentState)
    (st : TaskStore) : ((executeTaskAction ops today s st).1).messages = s.messages := by
  unfold executeTaskAction
  rcases hd : dispatchAction ops today (s.intent.getD .general)
      (match s.messages.getLast? with | some m => m.content | none => "") st with p | e <;>
    simp [hd]

theorem generateResponseNode_messages (tNow : String) (s : AgentState) :
    (generateResponseNode tNow s).messages =
      s.messages ++ [⟨"assistant", generateResponse (s.actionResult.getD {}), tNow⟩] := rfl

/-- The only error `dueBoundStep` can raise is its own message. -/
theorem dueBoundStep_error (msg : String) (d : Option DateVal) (e : String)
    (h : dueBoundStep msg d = .error e) : e = msg := by
  unfold dueBoundStep at h
  rcases d with - | d
  · simp at h
  · simp only at h
    by_cases hdt : dateTruthy d = true
    · rw [if_pos hdt] at h
      rcases h2 : tryParseDate d with - | n
      · rw [h2] at h
        injection h with h3
        exact h3.symm
      · rw [h2] at h
        simp at h
    · rw [if_neg hdt] at h
      simp at h

/-- Every error `create_task` itself can return is a date or priority
validation message, never the dispatcher's no-title guidance. -/
theorem createTask_error_ne_guidance (a : CreateArgs) (st : TaskStore) :
    (createTask a st).1.error ≠ some noTitleGuidance := by
  unfold createTask
  rcases hd : parseDueArg a.due_date with e | pd
  · simp only
    intro hc
    have he : e = noTitleGuidance := by simpa using hc
    have := dueBoundStep_error invalidDateMsg a.due_date e hd
    rw [he] at this
    exact absurd this (by decide)
  · rcases hp : parsePriority a.priority with - | pr
    · simp only
      intro hc
      have : invalidPriorityMsg = noTitleGuidance := by simpa using hc
      exact absurd this (by decide)
    · simp

/-- When the priority filter is the default "medium", every task in a
successful filter result has medium priority. -/
theorem filterTasks_medium_restricts (a : FilterArgs) (st : TaskStore)
    (hp : a.priority = some "medium") :
    ∀ l, (filterTasks a st).tasks = some l → ∀ t ∈ l, t.priority = .medium := by
  intro l htasks t ht
  unfold filterTasks at htasks
  rw [hp] at htasks
  rcases h1 : statusFilterStep a.status with e | fs
  · rw [h1] at htasks; simp at htasks
  · rw [h1] at htasks
    have hpr : priorityFilterStep (some "medium") = .ok (some .medium) := rfl
    rw [hpr] at htasks
    rcases h3 : dueBoundStep "Invalid due_date_from format. Use YYYY-MM-DD format."
        a.due_date_from with e | ff
    · rw [h3] at htasks; simp at htasks
    · rw [h3] at htasks
      rcases h4 : dueBoundStep "Invalid due_date_to format. Use YYYY-MM-DD format."
          a.due_date_to with e | ft
      · rw [h4] at htasks; simp at htasks
      · rw [h4] at htasks
        simp only [ActionResult.tasks, Option.some.injEq] at htasks
        subst htasks
        rw [List.mem_reverse] at ht
        have hk := List.of_mem_filter ht
        unfold keepTask at hk
        simp only [Bool.and_eq_true, beq_iff_eq] at hk
        exact hk.1.1.2

theorem c5_priority_total_first_hit_witness :
    ((extractPriority "hello there" = "urgent" ∨ extractPriority "hello there" = "high" ∨
      extractPriority "hello there" = "medium" ∨ extractPriority "hello there" = "low") ∧
     ((∀ kv ∈ priorityTable, containsWordCI kv.1.data "hello there".data = false) →
       extractPriority "hello there" = "medium") ∧
     (∀ kw v, priorityTable.find?
         (fun kv => containsWordCI kv.1.data "hello there".data) = some (kw, v) →
       extractPriority "hello there" = v)) ∧
    extractPriority "hello there" = "medium" :=
  ⟨c5_priority_total_first_hit "hello there",
   (c5_priority_total_first_hit "hello there").2.1 (by decide)⟩

/-- C1 (claim as stated fails on the code): the store's list result carries
`success = True`, so `generate_response` takes the success branch and
replies with the generic confirmation — never the count header, and never
the fixed "no tasks found" message, even for "show me all my tasks"
against an empty store. -/
theorem c1_list_reply_shadowed :
    (listTasks emptyStore).tasks = some [] ∧
    (listTasks emptyStore).count = some 0 ∧
    (listTasks emptyStore).success = true ∧
    classifyIntent "show me all my tasks" = .list ∧
    (processUserMessage realOps 0 emptyStore "show me all my tasks" [] "t0" "t1").1.1 =
      defaultSuccessMsg ∧
    defaultSuccessMsg ≠ noTasksFoundMsg ∧
    (processUserMessage realOps 0 emptyStore "show me all my tasks" [] "t0" "t1").1.1 ≠
      noTasksFoundMsg := by
  refine ⟨rfl, rfl, rfl, by decide, by rfl, by decide, ?_⟩
  intro hc
  exact absurd ((by rfl : (processUserMessage realOps 0 emptyStore "show me all my tasks"
    [] "t0" "t1").1.1 = defaultSuccessMsg).symm.trans hc) (by decide)

/-- C2 (counterexample): "mark task 3 as completed" classifies as `create`
(the substring "complete" is a create keyword and create is scanned
first), never reaching the update path; and on a genuine update input that
mentions neither title nor priority ("update task 3"), the dispatcher
passes a non-absent title and priority, overwriting the stored title
"Buy milk" and the stored high priority with "update task 3" / medium. -/
theorem c2_counterexample :
    classifyIntent "mark task 3 as completed" = .create ∧
    Intent.create ≠ Intent.update ∧
    classifyIntent "update task 3" = .update ∧
    extractStatus "update task 3" = none ∧
    dispatchAction realOps 0 .update "update task 3"
        ⟨[⟨3, "Buy milk", none, .pending, none, .high⟩], 4⟩ =
      .ok ({ success := true,
             message := some "Task \x27update task 3\x27 updated successfully",
             task := some ⟨3, "update task 3", none, .pending, none, .medium⟩ },
           ⟨[⟨3, "update task 3", none, .pending, none, .medium⟩], 4⟩) ∧
    Priority.medium ≠ Priority.high :=
  ⟨by decide, by decide, by decide, by rfl, by rfl, by decide⟩

/-- C2 (amended): on the update path, the fields whose extractors can be
absent — description, status, due date — are passed absent when not
extracted and the store leaves them unchanged; but title and priority are
always passed non-absent (their extractors are total), so the stored
title is overwritten with `extract_title` and, when no priority keyword is
mentioned, the stored priority is overwritten with medium.  The
spec example "mark task 3 as completed" never reaches this path: it
classifies as create (see `c2_counterexample`). -/
theorem c2_update_frame (today : Nat) (input : String) (st : TaskStore)
    (tid : Nat) (t0 : Task)
    (hid : extractTaskId input = some tid) (htid : tid ≠ 0)
    (hfind : findById st.tasks tid = some t0)
    (hdesc : extractDescription input = none)
    (hstat : extractStatus input = none)
    (hdue : extractDueDate today input = none)
    (hpr : extractPriority input = "medium") :
    dispatchAction realOps today .update input st =
      .ok ({ success := true,
             message := some ("Task \x27" ++ extractTitle input ++ "\x27 updated successfully"),
             task := some ({ t0 with title := extractTitle input, priority := .medium }) },
           { st with tasks := replaceById st.tasks ({ t0 with title := extractTitle input, priority := .medium }) }) := by
  have htr : optNatTruthy (extractTaskId input) = true := by
    rw [hid]; simp [optNatTruthy, htid]
  show updateTaskFromInput realOps today input st = _
  unfold updateTaskFromInput
  rw [htr]
  simp only [Bool.not_true, Bool.false_and, Bool.false_eq_true, if_false]
  show Except.ok (updateTask (updateArgsOfInput today input) st) = _
  unfold updateTask updateArgsOfInput
  simp only [hid, hdesc, hstat, hdue, hpr, htr, hfind]
  simp only [optNatTruthy, Option.getD_some, bne_iff_ne, ne_eq, htid, not_false_eq_true,
    if_true, ite_true, hfind]
  rfl

theorem c2_update_frame_witness :
    dispatchAction realOps 0 .update "update task 3"
        ⟨[⟨3, "Buy milk", some "d", .in_progress, some 5, .high⟩], 4⟩ =
      .ok ({ success := true,
             message := some ("Task \x27" ++ extractTitle "update task 3" ++
               "\x27 updated successfully"),
             task := some ⟨3, extractTitle "update task 3", some "d", .in_progress,
               some 5, .medium⟩ },
           ⟨replaceById [⟨3, "Buy milk", some "d", .in_progress, some 5, .high⟩]
              ⟨3, extractTitle "update task 3", some "d", .in_progress, some 5, .medium⟩,
            4⟩) :=
  c2_update_frame 0 "update task 3" ⟨[⟨3, "Buy milk", some "d", .in_progress, some 5, .high⟩], 4⟩
    3 ⟨3, "Buy milk", some "d", .in_progress, some 5, .high⟩
    (by rfl) (by decide) (by rfl) (by rfl) (by decide) (by rfl) (by decide)

/-- C6: on the create path a time hint is folded into the stored
description — `"<description> | time: HH:MM"` when a description is
present, `"time: HH:MM"` otherwise; in particular "at 7pm" extracts as
19:00 and "add a task: dinner at 7pm" (no description) stores a task whose
description is exactly "time: 19:00". -/
theorem c6_time_hint_folding (d h : String) (hd : pyStrTruthy d = true)
    (hh : pyStrTruthy h = true) :
    foldTimeHint (some d) (some h) = some (d ++ " | time: " ++ h) ∧
    foldTimeHint none (some h) = some ("time: " ++ h) ∧
    extractTime "at 7pm" = some "19:00" ∧
    dispatchAction realOps 0 .create "add a task: dinner at 7pm" emptyStore =
      .ok ({ success := true,
             message := some "Task \x27dinner at 7pm\x27 created successfully",
             task := some ⟨1, "dinner at 7pm", some "time: 19:00", .pending, none, .medium⟩ },
           ⟨[⟨1, "dinner at 7pm", some "time: 19:00", .pending, none, .medium⟩], 2⟩) := by
  refine ⟨?_, ?_, by rfl, by rfl⟩
  · simp [foldTimeHint, optStrTruthy, hh, hd]
  · simp [foldTimeHint, optStrTruthy, hh]

theorem c6_time_hint_folding_witness :
    foldTimeHint (some "walk dog") (some "19:00") = some "walk dog | time: 19:00" ∧
    foldTimeHint none (some "19:00") = some "time: 19:00" ∧
    extractTime "at 7pm" = some "19:00" ∧
    dispatchAction realOps 0 .create "add a task: dinner at 7pm" emptyStore =
      .ok ({ success := true,
             message := some "Task \x27dinner at 7pm\x27 created successfully",
             task := some ⟨1, "dinner at 7pm", some "time: 19:00", .pending, none, .medium⟩ },
           ⟨[⟨1, "dinner at 7pm", some "time: 19:00", .pending, none, .medium⟩], 2⟩) :=
  c6_time_hint_folding "walk dog" "19:00" (by decide) (by decide)

/-- C7: whatever intent was classified, if the store operation the
dispatcher invokes raises, the exception is caught at the dispatcher
boundary and wrapped as `{"error": "An error occurred: ..."}`; the store
is untouched, the composed reply is that error text, and the pipeline
still appends exactly one assistant turn carrying it. -/
theorem c7_dispatcher_catches (ops : StoreOps) (today : Nat) (intent : Intent)
    (st : TaskStore) (hist : List Turn) (input e tU tA : String)
    (h : dispatchAction ops today intent input st = .error e) :
    (executeTaskAction ops today
        { messages := hist ++ [⟨"user", input, tU⟩], intent := some intent } st).1.actionResult =
      some { error := some ("An error occurred: " ++ e) } ∧
    (executeTaskAction ops today
        { messages := hist ++ [⟨"user", input, tU⟩], intent := some intent } st).2 = st ∧
    generateResponse { error := some ("An error occurred: " ++ e) } =
      "An error occurred: " ++ e ∧
    (generateResponseNode tA (executeTaskAction ops today
        { messages := hist ++ [⟨"user", input, tU⟩], intent := some intent } st).1).messages =
      (hist ++ [⟨"user", input, tU⟩]) ++
        [⟨"assistant", "An error occurred: " ++ e, tA⟩] := by
  have hne : ("An error occurred: " ++ e) ≠ "" :=
    string_append_ne_empty e (by decide)
  have hgen : generateResponse { error := some ("An error occurred: " ++ e) } =
      "An error occurred: " ++ e := by
    unfold generateResponse errTruthy
    simp [pyStrTruthy, hne]
  have hexec : executeTaskAction ops today
      { messages := hist ++ [⟨"user", input, tU⟩], intent := some intent } st =
      ({ messages := hist ++ [⟨"user", input, tU⟩], intent := some intent,
         actionResult := some { error := some ("An error occurred: " ++ e) } }, st) := by
    unfold executeTaskAction
    rw [List.getLast?_concat]
    simp only [Option.getD_some]
    rw [h]
  refine ⟨by rw [hexec], by rw [hexec], hgen, ?_⟩
  rw [hexec, generateResponseNode_messages]
  simp [hgen]

theorem c7_dispatcher_catches_witness :
    (executeTaskAction ⟨fun _ _ => .error "boom", fun _ _ => .error "boom",
        fun _ _ => .error "boom", fun _ => .error "boom", fun _ _ => .error "boom"⟩ 0
        { messages := [⟨"user", "show me all my tasks", "t0"⟩], intent := some .list }
        emptyStore).1.actionResult =
      some { error := some ("An error occurred: " ++ "boom") } ∧
    (executeTaskAction ⟨fun _ _ => .error "boom", fun _ _ => .error "boom",
        fun _ _ => .error "boom", fun _ => .error "boom", fun _ _ => .error "boom"⟩ 0
        { messages := [⟨"user", "show me all my tasks", "t0"⟩], intent := some .list }
        emptyStore).2 = emptyStore ∧
    generateResponse { error := some ("An error occurred: " ++ "boom") } =
      "An error occurred: " ++ "boom" ∧
    (generateResponseNode "t1" (executeTaskAction ⟨fun _ _ => .error "boom",
        fun _ _ => .error "boom", fun _ _ => .error "boom", fun _ => .error "boom",
        fun _ _ => .error "boom"⟩ 0
        { messages := [⟨"user", "show me all my tasks", "t0"⟩], intent := some .list }
        emptyStore).1).messages =
      ([] ++ [⟨"user", "show me all my tasks", "t0"⟩]) ++
        [⟨"assistant", "An error occurred: " ++ "boom", "t1"⟩] :=
  c7_dispatcher_catches ⟨fun _ _ => .error "boom", fun _ _ => .error "boom",
    fun _ _ => .error "boom", fun _ => .error "boom", fun _ _ => .error "boom"⟩ 0
    .list emptyStore [] "show me all my tasks" "boom" "t0" "t1" rfl

/-- C8: one pipeline invocation on one user message appends exactly one
assistant turn, immediately after the appended user turn, leaving every
earlier turn untouched, for success and error outcomes alike (the store
behaviour is arbitrary); the returned reply is that assistant turn's
content. -/
theorem c8_one_assistant_turn (ops : StoreOps) (today : Nat) (st : TaskStore)
    (history : List Turn) (msg tU tA : String) :
    (processUserMessage ops today st msg history tU tA).1.2 =
      history ++ [⟨"user", msg, tU⟩,
        ⟨"assistant", (processUserMessage ops today st msg history tU tA).1.1, tA⟩] := by
  simp only [processUserMessage, runDeterministicAgent]
  rw [generateResponseNode_messages, executeTaskAction_messages, parseUserIntent_messages]
  simp only [List.getLast?_concat]
  simp

/-- C9: the filter dispatcher always passes a non-absent priority because
`extract_priority` is total: on any input without a whole-word priority
keyword, `filter_tasks` is invoked with priority "medium", and every task
the store returns for that call has medium priority — even though the user
named no priority. -/
theorem c9_filter_priority_default (today : Nat) (input : String) (st : TaskStore)
    (h : ∀ kv ∈ priorityTable, containsWordCI kv.1.data input.data = false) :
    (filterArgsOfInput today input).priority = some "medium" ∧
    ∀ r st2 l, dispatchAction realOps today .filter input st = .ok (r, st2) →
      r.tasks = some l → ∀ t ∈ l, t.priority = .medium := by
  have hpr : extractPriority input = "medium" := extractPriority_medium_of_no_kw h
  have harg : (filterArgsOfInput today input).priority = some "medium" := by
    simp [filterArgsOfInput, hpr]
  refine ⟨harg, ?_⟩
  intro r st2 l hok htasks t ht
  have hr : r = filterTasks (filterArgsOfInput today input) st := by
    have : dispatchAction realOps today .filter input st =
        .ok (filterTasks (filterArgsOfInput today input) st, st) := rfl
    rw [this] at hok
    exact ((Prod.mk.injEq _ _ _ _).mp (Except.ok.inj hok)).1.symm
  subst hr
  exact filterTasks_medium_restricts (filterArgsOfInput today input) st harg l htasks t ht

theorem c9_filter_priority_default_witness :
    (filterArgsOfInput 0 "search tasks").priority = some "medium" ∧
    (∀ r st2 l, dispatchAction realOps 0 .filter "search tasks"
        ⟨[⟨1, "a", none, .pending, none, .high⟩, ⟨2, "b", none, .pending, none, .medium⟩], 3⟩ =
        .ok (r, st2) → r.tasks = some l → ∀ t ∈ l, t.priority = .medium) :=
  c9_filter_priority_default 0 "search tasks"
    ⟨[⟨1, "a", none, .pending, none, .high⟩, ⟨2, "b", none, .pending, none, .medium⟩], 3⟩
    (by decide)

/-- C10 (counterexample): the no-title guidance error does not arise only
for the empty input — "add a task: " is non-empty, classifies as create,
its title pattern captures a lone space which strips to the empty string,
and the create dispatcher answers with the guidance error. -/
theorem c10_counterexample :
    "add a task: " ≠ "" ∧
    extractTitle "add a task: " = "" ∧
    classifyIntent "add a task: " = .create ∧
    dispatchAction realOps 0 .create "add a task: " emptyStore =
      .ok ({ error := some noTitleGuidance }, emptyStore) :=
  ⟨by decide, by rfl, by decide, by rfl⟩

/-- C10 (amended): `extract_title` is total — the first matching pattern's
capture stripped, else the first four words when the input has more than
three, else the input unchanged; the create path's guidance error arises
exactly when `extract_title` returns the empty string, which happens for
the empty input but also for non-empty inputs whose capture strips to
empty (such as "add a task: "); a whitespace-only input matches no
pattern, is returned unstripped, and is accepted as a title. -/
theorem c10_title_total (today : Nat) (input : String) (st : TaskStore) :
    ((∀ p ∈ titlePatterns, research p input.data = none) →
      extractTitle input =
        (if (pyWords input).length > 3 then joinSpace ((pyWords input).take 4)
         else input)) ∧
    (extractTitle input = "" →
      createTaskFromInput realOps today input st = .ok ({ error := some noTitleGuidance }, st)) ∧
    (extractTitle input ≠ "" → ∀ r st2,
      createTaskFromInput realOps today input st = .ok (r, st2) →
        r.error ≠ some noTitleGuidance) ∧
    extractTitle "   " = "   " := by
  refine ⟨?_, ?_, ?_, by rfl⟩
  · intro hall
    have h1 := hall titlePat1 (by simp [titlePatterns])
    have h2 := hall titlePat2 (by simp [titlePatterns])
    have h3 := hall titlePat3 (by simp [titlePatterns])
    have h4 := hall titlePat4 (by simp [titlePatterns])
    have h5 := hall titlePat5 (by simp [titlePatterns])
    have h6 := hall titlePat6 (by simp [titlePatterns])
    have h7 := hall titlePat7 (by simp [titlePatterns])
    unfold extractTitle titlePatterns
    simp [List.findSome?_cons, h1, h2, h3, h4, h5, h6, h7, List.findSome?]
  · intro he
    unfold createTaskFromInput
    rw [he]
    rfl
  · intro hne r st2 hok
    unfold createTaskFromInput at hok
    rw [if_neg (by simpa using hne)] at hok
    have hr : r = (createTask (createArgsOfInput today input) st).1 := by
      have : realOps.createT (createArgsOfInput today input) st =
          .ok (createTask (createArgsOfInput today input) st) := rfl
      rw [this] at hok
      have := Except.ok.inj hok
      exact congrArg Prod.fst this.symm
    rw [hr]
    exact createTask_error_ne_guidance _ _

theorem c10_title_total_witness :
    extractTitle "update task 3" =
      (if (pyWords "update task 3").length > 3 then
        joinSpace ((pyWords "update task 3").take 4)
       else "update task 3") ∧
    createTaskFromInput realOps 0 "" emptyStore =
      .ok ({ error := some noTitleGuidance }, emptyStore) ∧
    extractTitle "   " = "   " :=
  ⟨(c10_title_total 0 "update task 3" emptyStore).1 (by decide),
   (c10_title_total 0 "" emptyStore).2.1 (by rfl),
   (c10_title_total 0 "x" emptyStore).2.2.2⟩

end TaskAgent
